import Mathlib

/-!
Verification of the password generator core (`password_generator.py`).

Strings are modelled as `List Char`. Python's randomness sources
(`random.choice`, `secrets.choice`, `secrets.randbelow`,
`secrets.SystemRandom().shuffle`) are modelled by an oracle supplying
one natural number per draw; drawing from a sequence of length `n`
uses the oracle value modulo `n`, and drawing from an empty sequence
is the Python `IndexError`.  Fallible operations return
`Except GenError`.
-/

/-- Embeds `PasswordStrength` (password_generator.py lines 11-15). -/
inductive PasswordStrength where
  | BASIC
  | STRONG
  | PARANOID
deriving DecidableEq, Repr

/-- Embeds `PasswordCategory` (password_generator.py lines 17-21). -/
inductive PasswordCategory where
  | ALPHANUMERIC
  | COMPLEX
  | PASSPHRASE
deriving DecidableEq, Repr

/-- Embeds the `PasswordPolicy` dataclass with its default field values
(password_generator.py lines 23-33). `exclude_chars` is a Python string,
modelled as a list of characters. -/
structure PasswordPolicy where
  min_length : Nat := 12
  max_length : Nat := 128
  min_digits : Nat := 2
  min_special : Nat := 2
  min_upper : Nat := 1
  min_lower : Nat := 1
  exclude_chars : List Char := []
  exclude_similar : Bool := true
deriving DecidableEq, Repr

/-- The error taxonomy of the program: `InputValidationError`,
`PolicyViolationError` (carrying the attempt ceiling its message names),
the generic `PasswordGeneratorError` raised when the wordlist is missing,
and Python's `IndexError` raised by `random.choice` / `secrets.choice`
on an empty sequence.  There is no configuration-error variant because
the source defines none. -/
inductive GenError where
  | inputValidation
  | policyViolation (ceiling : Nat)
  | resourceError
  | indexError
deriving DecidableEq, Repr

/-- `string.ascii_lowercase`. -/
def ascii_lowercase : List Char := "abcdefghijklmnopqrstuvwxyz".toList

/-- `string.ascii_uppercase`. -/
def ascii_uppercase : List Char := "ABCDEFGHIJKLMNOPQRSTUVWXYZ".toList

/-- `string.digits`. -/
def ascii_digits : List Char := "0123456789".toList

/-- `string.punctuation`, in Python's order. -/
def punctuation : List Char :=
  ['!', '\x22', '#', '$', '%', '&', '\x27', '(', ')', '*', '+', ',',
   '-', '.', '/', ':', ';', '<', '=', '>', '?', '@', '[', '\\', ']',
   '^', '_', '\x60', '\x7b', '|', '\x7d', '~']

/-- The visually similar characters removed by `_exclude_similar_chars`
(password_generator.py line 78). -/
def similar_chars : List Char := ['l', '1', 'I', 'o', 'O', '0']

/-- Python `s.replace(c, "")` for a single character `c`: removes every
occurrence of `c` from `s`. -/
def removeChar (s : List Char) (c : Char) : List Char :=
  s.filter (fun x => x ≠ c)

/-- One pass of the exclusion loops (password_generator.py lines 79-82 and
86-90): for each character of `cs`, remove `f c` from the set, where `f`
is `str.lower`, `str.upper` or the identity, matching the source's
`char.lower()` / `char.upper()` / `char` per character class. -/
def removeAll (s : List Char) (cs : List Char) (f : Char → Char) : List Char :=
  cs.foldl (fun acc c => removeChar acc (f c)) s

/-- Embeds `CharacterLake`: the policy plus the four derived character
classes (password_generator.py lines 50-74). -/
structure CharacterLake where
  policy : PasswordPolicy
  lowercase : List Char
  uppercase : List Char
  digits : List Char
  special : List Char
deriving DecidableEq, Repr

/-- Embeds `CharacterLake.__init__` / `_initialize_character_sets`
(password_generator.py lines 63-90): start from the full canonical
classes, apply `_exclude_similar_chars` when `exclude_similar` is set,
then `_exclude_specified_chars`.  The source guards the second pass with
`if self.policy.exclude_chars:`, which is the identity when the exclusion
string is empty, as is the unconditional fold here. -/
def mkCharacterLake (policy : PasswordPolicy) : CharacterLake :=
  let low1 := if policy.exclude_similar then
      removeAll ascii_lowercase similar_chars Char.toLower else ascii_lowercase
  let up1 := if policy.exclude_similar then
      removeAll ascii_uppercase similar_chars Char.toUpper else ascii_uppercase
  let dig1 := if policy.exclude_similar then
      removeAll ascii_digits similar_chars id else ascii_digits
  { policy := policy
    lowercase := removeAll low1 policy.exclude_chars Char.toLower
    uppercase := removeAll up1 policy.exclude_chars Char.toUpper
    digits := removeAll dig1 policy.exclude_chars id
    special := removeAll punctuation policy.exclude_chars id }

/-- Embeds `CharacterLake.get_character_set` (password_generator.py lines
92-109).  The `ValueError` branch is unreachable over the closed enum. -/
def get_character_set (lake : CharacterLake) (category : PasswordCategory) : List Char :=
  match category with
  | .ALPHANUMERIC => lake.lowercase ++ lake.uppercase ++ lake.digits
  | .COMPLEX => lake.lowercase ++ lake.uppercase ++ lake.digits ++ lake.special
  | .PASSPHRASE => lake.lowercase ++ lake.uppercase

/-- Python `sum(1 for c in password if c in s)`: the number of characters
of `password` that belong to `s`. -/
def countIn (password : List Char) (s : List Char) : Nat :=
  password.countP (fun c => decide (c ∈ s))

/-- Embeds `CharacterLake.validate_policy_compliance` (password_generator.py
lines 111-147): the length bounds are checked first for every category,
then the per-category minimum counts. -/
def validate_policy_compliance (lake : CharacterLake) (password : List Char)
    (category : PasswordCategory) : Bool :=
  if password.length < lake.policy.min_length then false
  else if password.length > lake.policy.max_length then false
  else
    let digit_count := countIn password lake.digits
    let special_count := countIn password lake.special
    let upper_count := countIn password lake.uppercase
    let lower_count := countIn password lake.lowercase
    match category with
    | .ALPHANUMERIC =>
        decide (digit_count ≥ lake.policy.min_digits ∧
                upper_count ≥ lake.policy.min_upper ∧
                lower_count ≥ lake.policy.min_lower)
    | .COMPLEX =>
        decide (digit_count ≥ lake.policy.min_digits ∧
                special_count ≥ lake.policy.min_special ∧
                upper_count ≥ lake.policy.min_upper ∧
                lower_count ≥ lake.policy.min_lower)
    | .PASSPHRASE =>
        decide (upper_count ≥ lake.policy.min_upper ∧
                lower_count ≥ lake.policy.min_lower)

/-- One oracle value per random draw the program makes: `charDraw a i` is
the draw for position `i` of candidate attempt `a`; the other fields feed
the passphrase pipeline.  Both `random.choice` (Basic) and
`secrets.choice` (Strong/Paranoid) are uniform draws and are modelled by
the same oracle, so strength selects no behavioural difference on the
character path. -/
structure RandOracle where
  charDraw : Nat → Nat → Nat
  wordDraw : Nat → Nat
  coin : Nat → Nat
  digitDraw : Nat
  specialDraw : Nat
  shuffleDraw : Nat → Nat
  sepDraw : Nat

/-- Python `random.choice(l)` / `secrets.choice(l)` driven by one oracle
value `r`: uniform selection via `r % l.length`, and `IndexError` when
`l` is empty. -/
def pyChoice (l : List Char) (r : Nat) : Except GenError Char :=
  if l.isEmpty then .error .indexError else .ok (l.getD (r % l.length) ' ')

/-- The candidate string of one attempt (password_generator.py line 209):
`length` independent draws from `chars`, concatenated. -/
def candidate (chars : List Char) (length : Nat) (r : Nat → Nat) : List Char :=
  (List.range length).map (fun i => chars.getD (r i % chars.length) ' ')

/-- Drawing one candidate: when `chars` is empty and at least one draw is
needed, Python's `random.choice` / `secrets.choice` raises `IndexError`;
with zero draws the generator expression is never entered and the empty
string results. -/
def drawCandidate (chars : List Char) (length : Nat) (r : Nat → Nat) :
    Except GenError (List Char) :=
  if chars.isEmpty then
    if length = 0 then .ok [] else .error .indexError
  else .ok (candidate chars length r)

/-- The attempt ceiling `max_attempts` (password_generator.py line 206). -/
def max_attempts : Nat := 100

/-- The rejection-sampling loop of `generate_password` (password_generator.py
lines 205-216): draw a candidate, return it if compliant, else retry;
when the fuel (initially `max_attempts`) runs out raise
`PolicyViolationError` naming the ceiling. -/
def attemptLoop (lake : CharacterLake) (chars : List Char) (length : Nat)
    (category : PasswordCategory) (r : Nat → Nat → Nat) :
    Nat → Nat → Except GenError (List Char)
  | _, 0 => .error (.policyViolation max_attempts)
  | attempt, fuel + 1 =>
    match drawCandidate chars length (r attempt) with
    | .error e => .error e
    | .ok password =>
      if validate_policy_compliance lake password category then .ok password
      else attemptLoop lake chars length category r (attempt + 1) fuel

/-- Embeds `PasswordGenerator`: the policy, the derived character lake and
the wordlist.  The source loads the wordlist from an external file at
construction; its contents are a parameter here, the empty list standing
for a missing or empty wordlist exactly as the source's
`if not self.wordlist:` check treats both alike. -/
structure PasswordGenerator where
  policy : PasswordPolicy
  character_lake : CharacterLake
  wordlist : List (List Char)

/-- Embeds `PasswordGenerator.__init__` (password_generator.py lines
154-163). -/
def mkGenerator (policy : PasswordPolicy) (wordlist : List (List Char)) :
    PasswordGenerator :=
  { policy := policy, character_lake := mkCharacterLake policy, wordlist := wordlist }

/-- Python `str.capitalize()`: first character upper-cased, the rest
lower-cased (ASCII). -/
def pyCapitalize (w : List Char) : List Char :=
  match w with
  | [] => []
  | c :: cs => c.toUpper :: cs.map Char.toLower

/-- The separator pool of `_generate_passphrase` (password_generator.py
line 260). -/
def sepList : List (List Char) := [['-'], ['_'], ['.'], [' '], []]

/-- Python `separator.join(words)`. -/
def joinSep (sep : List Char) (tokens : List (List Char)) : List Char :=
  (tokens.intersperse sep).flatten

/-- One swap of Python's `random.shuffle`: exchange positions `i` and `j`
of the list, the identity when either index is out of range (never the
case in the shuffle loop). -/
def swapL (l : List α) (i j : Nat) : List α :=
  match l.get? i, l.get? j with
  | some x, some y => (l.set i y).set j x
  | _, _ => l

/-- The Fisher-Yates loop of CPython's `Random.shuffle`: for `i` from
`len-1` down to `1`, draw `j = randbelow(i+1)` and swap positions `i`
and `j`. -/
def fyAux (draws : Nat → Nat) : Nat → List α → List α
  | 0, l => l
  | i + 1, l => fyAux draws i (swapL l (i + 1) (draws (i + 1) % (i + 2)))

/-- `secrets.SystemRandom().shuffle(l)` driven by the oracle stream
`draws`. -/
def pyShuffle (draws : Nat → Nat) (l : List α) : List α :=
  fyAux draws (l.length - 1) l

/-- Embeds `PasswordGenerator._generate_passphrase` (password_generator.py
lines 218-261): wordlist-presence check, `word_count` word draws, the
strength-gated transformations, separator choice and join. -/
def generate_passphrase (g : PasswordGenerator) (word_count : Nat)
    (strength : PasswordStrength) (o : RandOracle) : Except GenError (List Char) :=
  if g.wordlist.isEmpty then .error .resourceError
  else
    let words := (List.range word_count).map
      (fun i => g.wordlist.getD (o.wordDraw i % g.wordlist.length) [])
    match strength with
    | .BASIC => .ok (joinSep [' '] words)
    | .STRONG =>
      let words2 := List.zipWith
        (fun i w => if o.coin i % 2 = 1 then pyCapitalize w else w)
        (List.range words.length) words
      match pyChoice g.character_lake.digits o.digitDraw with
      | .error e => .error e
      | .ok d =>
        let sep := sepList.getD (o.sepDraw % sepList.length) []
        .ok (joinSep sep (words2 ++ [[d]]))
    | .PARANOID =>
      let words2 := words.map pyCapitalize
      match pyChoice g.character_lake.digits o.digitDraw with
      | .error e => .error e
      | .ok d =>
        match pyChoice g.character_lake.special o.specialDraw with
        | .error e => .error e
        | .ok sp =>
          let tokens := pyShuffle o.shuffleDraw (words2 ++ [[d], [sp]])
          let sep := sepList.getD (o.sepDraw % sepList.length) []
          .ok (joinSep sep tokens)

/-- Embeds `PasswordGenerator.generate_password` (password_generator.py
lines 173-216): length-bounds validation first, then the passphrase
branch, otherwise the rejection-sampling loop over the category's
character set. -/
def generate_password (g : PasswordGenerator) (length : Nat)
    (category : PasswordCategory) (strength : PasswordStrength)
    (o : RandOracle) : Except GenError (List Char) :=
  if ¬(g.policy.min_length ≤ length ∧ length ≤ g.policy.max_length) then
    .error .inputValidation
  else if category = .PASSPHRASE then generate_passphrase g length strength o
  else
    attemptLoop g.character_lake (get_character_set g.character_lake category)
      length category o.charDraw 0 max_attempts

/-- The sequential evaluation of the list comprehension in
`generate_multiple`: call `f` at indices `i, i+1, ...` for `k` calls,
stopping at the first error. -/
def genFrom (f : Nat → Except GenError (List Char)) (i : Nat) :
    Nat → Except GenError (List (List Char))
  | 0 => .ok []
  | k + 1 =>
    match f i with
    | .error e => .error e
    | .ok x =>
      match genFrom f (i + 1) k with
      | .error e => .error e
      | .ok xs => .ok (x :: xs)

/-- Embeds `PasswordGenerator.generate_multiple` (password_generator.py
lines 263-277): `count` sequential calls to `generate_password` with the
same arguments, each call consuming its own fresh randomness (`os i`); a
Python exception in any call aborts the comprehension. -/
def generate_multiple (g : PasswordGenerator) (count length : Nat)
    (category : PasswordCategory) (strength : PasswordStrength)
    (os : Nat → RandOracle) : Except GenError (List (List Char)) :=
  genFrom (fun i => generate_password g length category strength (os i)) 0 count

/-! ## Membership facts about the exclusion machinery -/

theorem mem_removeChar {s : List Char} {c x : Char} :
    x ∈ removeChar s c ↔ x ∈ s ∧ x ≠ c := by
  simp [removeChar]

theorem removeAll_cons {s : List Char} {c : Char} {cs : List Char} {f : Char → Char} :
    removeAll s (c :: cs) f = removeAll (removeChar s (f c)) cs f := rfl

theorem mem_removeAll {x : Char} {f : Char → Char} :
    ∀ (cs s : List Char), x ∈ removeAll s cs f ↔ x ∈ s ∧ ∀ c ∈ cs, x ≠ f c := by
  intro cs
  induction cs with
  | nil => intro s; simp [removeAll]
  | cons c cs ih =>
    intro s
    rw [removeAll_cons, ih]
    simp only [mem_removeChar, List.mem_cons]
    constructor
    · rintro ⟨⟨hs, hne⟩, hall⟩
      refine ⟨hs, fun e he => ?_⟩
      rcases he with rfl | he
      · exact hne
      · exact hall e he
    · rintro ⟨hs, hall⟩
      exact ⟨⟨hs, hall c (Or.inl rfl)⟩, fun e he => hall e (Or.inr he)⟩

theorem toLower_fixed : ∀ x ∈ ascii_lowercase, Char.toLower x = x := by decide

theorem toUpper_fixed : ∀ x ∈ ascii_uppercase, Char.toUpper x = x := by decide

theorem similar_not_punct : ∀ x ∈ similar_chars, x ∉ punctuation := by decide

theorem getD_mem_of_lt (l : List α) (n : Nat) (d : α) (h : n < l.length) :
    l.getD n d ∈ l := by
  induction l generalizing n with
  | nil => simp at h
  | cons a t ih =>
    cases n with
    | zero => simp [List.getD]
    | succ m =>
      simp only [List.getD_cons_succ]
      exact List.mem_cons_of_mem a (ih m (by simpa using h))

/-- The lowercase class of the lake is drawn from `ascii_lowercase`. -/
theorem lake_lowercase_sub (pol : PasswordPolicy) :
    ∀ x ∈ (mkCharacterLake pol).lowercase, x ∈ ascii_lowercase := by
  intro x hx
  simp only [mkCharacterLake] at hx
  rcases (mem_removeAll _ _).mp hx with ⟨hx1, -⟩
  by_cases h : pol.exclude_similar = true
  · rw [if_pos h] at hx1
    exact ((mem_removeAll _ _).mp hx1).1
  · rwa [if_neg h] at hx1

/-- The uppercase class of the lake is drawn from `ascii_uppercase`. -/
theorem lake_uppercase_sub (pol : PasswordPolicy) :
    ∀ x ∈ (mkCharacterLake pol).uppercase, x ∈ ascii_uppercase := by
  intro x hx
  simp only [mkCharacterLake] at hx
  rcases (mem_removeAll _ _).mp hx with ⟨hx1, -⟩
  by_cases h : pol.exclude_similar = true
  · rw [if_pos h] at hx1
    exact ((mem_removeAll _ _).mp hx1).1
  · rwa [if_neg h] at hx1

/-- A policy-excluded character survives in none of the four derived
character classes. -/
theorem excluded_not_mem_lake (pol : PasswordPolicy) (c : Char)
    (hc : c ∈ pol.exclude_chars) :
    c ∉ (mkCharacterLake pol).lowercase ∧ c ∉ (mkCharacterLake pol).uppercase ∧
    c ∉ (mkCharacterLake pol).digits ∧ c ∉ (mkCharacterLake pol).special := by
  refine ⟨fun h => ?_, fun h => ?_, fun h => ?_, fun h => ?_⟩
  · have hsub := lake_lowercase_sub pol c h
    simp only [mkCharacterLake] at h
    have := ((mem_removeAll _ _).mp h).2 c hc
    exact this (toLower_fixed c hsub).symm
  · have hsub := lake_uppercase_sub pol c h
    simp only [mkCharacterLake] at h
    have := ((mem_removeAll _ _).mp h).2 c hc
    exact this (toUpper_fixed c hsub).symm
  · simp only [mkCharacterLake] at h
    exact ((mem_removeAll _ _).mp h).2 c hc rfl
  · simp only [mkCharacterLake] at h
    exact ((mem_removeAll _ _).mp h).2 c hc rfl

/-- With `exclude_similar` set, a similar character survives in none of
the four derived character classes. -/
theorem similar_not_mem_lake (pol : PasswordPolicy)
    (hsim : pol.exclude_similar = true) (c : Char) (hc : c ∈ similar_chars) :
    c ∉ (mkCharacterLake pol).lowercase ∧ c ∉ (mkCharacterLake pol).uppercase ∧
    c ∉ (mkCharacterLake pol).digits ∧ c ∉ (mkCharacterLake pol).special := by
  refine ⟨fun h => ?_, fun h => ?_, fun h => ?_, fun h => ?_⟩
  · simp only [mkCharacterLake, hsim, if_pos] at h
    rcases (mem_removeAll _ _).mp h with ⟨h1, -⟩
    rcases (mem_removeAll _ _).mp h1 with ⟨hlow, hall⟩
    exact hall c hc (toLower_fixed c hlow).symm
  · simp only [mkCharacterLake, hsim, if_pos] at h
    rcases (mem_removeAll _ _).mp h with ⟨h1, -⟩
    rcases (mem_removeAll _ _).mp h1 with ⟨hup, hall⟩
    exact hall c hc (toUpper_fixed c hup).symm
  · simp only [mkCharacterLake, hsim, if_pos] at h
    rcases (mem_removeAll _ _).mp h with ⟨h1, -⟩
    rcases (mem_removeAll _ _).mp h1 with ⟨-, hall⟩
    exact hall c hc rfl
  · simp only [mkCharacterLake] at h
    rcases (mem_removeAll _ _).mp h with ⟨h1, -⟩
    exact similar_not_punct c hc h1

/-- An excluded (or, with `exclude_similar`, visually similar) character
appears in no category alphabet. -/
theorem excluded_not_mem_charset (pol : PasswordPolicy) (c : Char)
    (hc : c ∈ pol.exclude_chars ∨ (pol.exclude_similar = true ∧ c ∈ similar_chars))
    (category : PasswordCategory) :
    c ∉ get_character_set (mkCharacterLake pol) category := by
  have hcls : c ∉ (mkCharacterLake pol).lowercase ∧ c ∉ (mkCharacterLake pol).uppercase ∧
      c ∉ (mkCharacterLake pol).digits ∧ c ∉ (mkCharacterLake pol).special := by
    rcases hc with h | ⟨hs, h⟩
    · exact excluded_not_mem_lake pol c h
    · exact similar_not_mem_lake pol hs c h
  obtain ⟨h1, h2, h3, h4⟩ := hcls
  cases category <;> simp [get_character_set, h1, h2, h3, h4]

/-! ## Facts about drawing and the rejection-sampling loop -/

theorem candidate_length (chars : List Char) (len : Nat) (r : Nat → Nat) :
    (candidate chars len r).length = len := by
  simp [candidate]

theorem candidate_mem (chars : List Char) (len : Nat) (r : Nat → Nat)
    (hne : chars.isEmpty = false) :
    ∀ c ∈ candidate chars len r, c ∈ chars := by
  intro c hc
  simp only [candidate, List.mem_map] at hc
  obtain ⟨i, -, rfl⟩ := hc
  have hpos : 0 < chars.length := by
    cases chars with
    | nil => simp at hne
    | cons a t => simp
  exact getD_mem_of_lt _ _ _ (Nat.mod_lt _ hpos)

theorem drawCandidate_ok_nonempty (chars : List Char) (len : Nat) (r : Nat → Nat)
    (hne : chars.isEmpty = false) :
    drawCandidate chars len r = .ok (candidate chars len r) := by
  simp [drawCandidate, hne]

theorem drawCandidate_ok_props {chars : List Char} {len : Nat} {r : Nat → Nat}
    {pw : List Char} (h : drawCandidate chars len r = .ok pw) :
    pw.length = len ∧ ∀ c ∈ pw, c ∈ chars := by
  by_cases hne : chars.isEmpty
  · simp only [drawCandidate, hne, if_true] at h
    by_cases hlen : len = 0
    · rw [if_pos hlen] at h
      cases h
      simp [hlen]
    · rw [if_neg hlen] at h
      cases h
  · have h2 : candidate chars len r = pw := by
      simpa [drawCandidate, hne] using h
    subst h2
    exact ⟨candidate_length _ _ _, candidate_mem _ _ _ (by simpa using hne)⟩

theorem drawCandidate_error {chars : List Char} {len : Nat} {r : Nat → Nat}
    {e : GenError} (h : drawCandidate chars len r = .error e) : e = .indexError := by
  by_cases hne : chars.isEmpty
  · simp only [drawCandidate, hne, if_true] at h
    by_cases hlen : len = 0
    · rw [if_pos hlen] at h; cases h
    · rw [if_neg hlen] at h; cases h; rfl
  · simp [drawCandidate, hne] at h

theorem pyChoice_error {l : List Char} {r : Nat} {e : GenError}
    (h : pyChoice l r = .error e) : e = .indexError := by
  by_cases hne : l.isEmpty
  · simp only [pyChoice, hne, if_true, Except.error.injEq] at h
    exact h.symm
  · simp [pyChoice, hne] at h

theorem pyChoice_ok_mem {l : List Char} {r : Nat} {c : Char}
    (h : pyChoice l r = .ok c) : c ∈ l := by
  by_cases hne : l.isEmpty
  · simp [pyChoice, hne] at h
  · have h2 : l.getD (r % l.length) ' ' = c := by
      simpa [pyChoice, hne] using h
    subst h2
    have hpos : 0 < l.length := by
      cases l with
      | nil => simp at hne
      | cons a t => simp
    exact getD_mem_of_lt _ _ _ (Nat.mod_lt _ hpos)

theorem attemptLoop_ok {lake : CharacterLake} {chars : List Char} {len : Nat}
    {category : PasswordCategory} {r : Nat → Nat → Nat} :
    ∀ {fuel attempt : Nat} {pw : List Char},
      attemptLoop lake chars len category r attempt fuel = .ok pw →
      (∃ a, drawCandidate chars len (r a) = .ok pw) ∧
        validate_policy_compliance lake pw category = true := by
  intro fuel
  induction fuel with
  | zero => intro attempt pw h; cases h
  | succ fuel ih =>
    intro attempt pw h
    unfold attemptLoop at h
    split at h
    · cases h
    · rename_i cand heq
      split at h
      · rename_i hv
        cases h
        exact ⟨⟨attempt, heq⟩, hv⟩
      · exact ih h

theorem attemptLoop_error {lake : CharacterLake} {chars : List Char} {len : Nat}
    {category : PasswordCategory} {r : Nat → Nat → Nat} :
    ∀ {fuel attempt : Nat} {e : GenError},
      attemptLoop lake chars len category r attempt fuel = .error e →
      e = .policyViolation max_attempts ∨ e = .indexError := by
  intro fuel
  induction fuel with
  | zero =>
    intro attempt e h
    cases h
    exact Or.inl rfl
  | succ fuel ih =>
    intro attempt e h
    unfold attemptLoop at h
    split at h
    · rename_i e2 heq
      cases h
      exact Or.inr (drawCandidate_error heq)
    · split at h
      · cases h
      · exact ih h

theorem attemptLoop_exhaust {lake : CharacterLake} {chars : List Char} {len : Nat}
    {category : PasswordCategory} {r : Nat → Nat → Nat}
    (hne : chars.isEmpty = false)
    (hbad : ∀ a, validate_policy_compliance lake (candidate chars len (r a)) category = false) :
    ∀ fuel attempt,
      attemptLoop lake chars len category r attempt fuel =
        .error (.policyViolation max_attempts) := by
  intro fuel
  induction fuel with
  | zero => intro attempt; rfl
  | succ fuel ih =>
    intro attempt
    have : attemptLoop lake chars len category r attempt (fuel + 1) =
        attemptLoop lake chars len category r (attempt + 1) fuel := by
      conv_lhs => rw [attemptLoop]
      rw [drawCandidate_ok_nonempty chars len (r attempt) hne]
      simp [hbad attempt]
    rw [this]
    exact ih (attempt + 1)

/-! ## Branch structure of generate_password and its helpers -/

theorem generate_password_out_of_bounds {g : PasswordGenerator} {length : Nat}
    {category : PasswordCategory} {strength : PasswordStrength} {o : RandOracle}
    (h : ¬(g.policy.min_length ≤ length ∧ length ≤ g.policy.max_length)) :
    generate_password g length category strength o = .error .inputValidation := by
  simp [generate_password, h]

theorem generate_password_passphrase {g : PasswordGenerator} {length : Nat}
    {strength : PasswordStrength} {o : RandOracle}
    (h1 : g.policy.min_length ≤ length) (h2 : length ≤ g.policy.max_length) :
    generate_password g length .PASSPHRASE strength o =
      generate_passphrase g length strength o := by
  simp [generate_password, h1, h2]

theorem generate_password_char_path {g : PasswordGenerator} {length : Nat}
    {category : PasswordCategory} {strength : PasswordStrength} {o : RandOracle}
    (h1 : g.policy.min_length ≤ length) (h2 : length ≤ g.policy.max_length)
    (hcat : category ≠ .PASSPHRASE) :
    generate_password g length category strength o =
      attemptLoop g.character_lake (get_character_set g.character_lake category)
        length category o.charDraw 0 max_attempts := by
  simp [generate_password, h1, h2, hcat]

theorem generate_passphrase_error {g : PasswordGenerator} {word_count : Nat}
    {strength : PasswordStrength} {o : RandOracle} {e : GenError}
    (h : generate_passphrase g word_count strength o = .error e) :
    e = .resourceError ∨ e = .indexError := by
  unfold generate_passphrase at h
  split at h
  · cases h
    exact Or.inl rfl
  · split at h
    · cases h
    · split at h
      · rename_i heq
        cases h
        exact Or.inr (pyChoice_error heq)
      · cases h
    · split at h
      · rename_i heq
        cases h
        exact Or.inr (pyChoice_error heq)
      · split at h
        · rename_i heq
          cases h
          exact Or.inr (pyChoice_error heq)
        · cases h

/-! ## Reading off the compliance predicate -/

theorem validate_bounds {lake : CharacterLake} {pw : List Char}
    {category : PasswordCategory}
    (h : validate_policy_compliance lake pw category = true) :
    lake.policy.min_length ≤ pw.length ∧ pw.length ≤ lake.policy.max_length := by
  unfold validate_policy_compliance at h
  split at h
  · cases h
  · split at h
    · cases h
    · omega

theorem validate_alpha_counts {lake : CharacterLake} {pw : List Char}
    (h : validate_policy_compliance lake pw .ALPHANUMERIC = true) :
    countIn pw lake.digits ≥ lake.policy.min_digits ∧
    countIn pw lake.uppercase ≥ lake.policy.min_upper ∧
    countIn pw lake.lowercase ≥ lake.policy.min_lower := by
  unfold validate_policy_compliance at h
  split at h
  · cases h
  · split at h
    · cases h
    · exact of_decide_eq_true h

theorem validate_complex_counts {lake : CharacterLake} {pw : List Char}
    (h : validate_policy_compliance lake pw .COMPLEX = true) :
    countIn pw lake.digits ≥ lake.policy.min_digits ∧
    countIn pw lake.special ≥ lake.policy.min_special ∧
    countIn pw lake.uppercase ≥ lake.policy.min_upper ∧
    countIn pw lake.lowercase ≥ lake.policy.min_lower := by
  unfold validate_policy_compliance at h
  split at h
  · cases h
  · split at h
    · cases h
    · exact of_decide_eq_true h

theorem countIn_le_length (pw s : List Char) : countIn pw s ≤ pw.length :=
  List.countP_le_length _

theorem countIn_nil (pw : List Char) : countIn pw [] = 0 := by
  simp [countIn]

/-- A candidate of the requested length can never meet a digit minimum
exceeding that length. -/
theorem validate_false_digit_deficit {lake : CharacterLake} {pw : List Char}
    {len : Nat} (hlen : pw.length = len) (hd : len < lake.policy.min_digits) :
    validate_policy_compliance lake pw .ALPHANUMERIC = false := by
  cases hv : validate_policy_compliance lake pw .ALPHANUMERIC
  · rfl
  · exfalso
    have := (validate_alpha_counts hv).1
    have hle := countIn_le_length pw lake.digits
    omega

/-- With an empty special class and a positive special minimum, no
candidate is Complex-compliant. -/
theorem validate_false_special_empty {lake : CharacterLake} {pw : List Char}
    (hsp : lake.special = []) (hmin : 0 < lake.policy.min_special) :
    validate_policy_compliance lake pw .COMPLEX = false := by
  cases hv : validate_policy_compliance lake pw .COMPLEX
  · rfl
  · exfalso
    have := (validate_complex_counts hv).2.1
    rw [hsp, countIn_nil] at this
    omega

theorem get_cons_set_perm {α : Type} :
    ∀ (t : List α) (k : Nat) (hk : k < t.length) (a : α),
      (t.get ⟨k, hk⟩ :: t.set k a).Perm (a :: t) := by
  intro t
  induction t with
  | nil => intro k hk a; simp at hk
  | cons c s ih =>
    intro k hk a
    cases k with
    | zero => simpa using List.Perm.swap a c s
    | succ m =>
      have hm : m < s.length := by simpa using hk
      have step1 : (s.get ⟨m, hm⟩ :: c :: s.set m a).Perm (c :: s.get ⟨m, hm⟩ :: s.set m a) :=
        List.Perm.swap c (s.get ⟨m, hm⟩) (s.set m a)
      have step2 : (c :: s.get ⟨m, hm⟩ :: s.set m a).Perm (c :: a :: s) :=
        List.Perm.cons c (ih m hm a)
      have step3 : (c :: a :: s).Perm (a :: c :: s) := List.Perm.swap a c s
      simpa using (step1.trans step2).trans step3

theorem set_get_set_perm {α : Type} :
    ∀ (l : List α) (i j : Nat) (hi : i < l.length) (hj : j < l.length),
      ((l.set i (l.get ⟨j, hj⟩)).set j (l.get ⟨i, hi⟩)).Perm l := by
  intro l
  induction l with
  | nil => intro i j hi hj; simp at hi
  | cons c t ih =>
    intro i j hi hj
    cases i with
    | zero =>
      cases j with
      | zero => simp
      | succ m =>
        have hm : m < t.length := by simpa using hj
        simpa using get_cons_set_perm t m hm c
    | succ k =>
      cases j with
      | zero =>
        have hk : k < t.length := by simpa using hi
        simpa using get_cons_set_perm t k hk c
      | succ m =>
        have hk : k < t.length := by simpa using hi
        have hm : m < t.length := by simpa using hj
        simpa using List.Perm.cons c (ih k m hk hm)

theorem swapL_perm {α : Type} (l : List α) (i j : Nat) : (swapL l i j).Perm l := by
  unfold swapL
  split
  · rename_i x y hx hy
    obtain ⟨hi, hxi⟩ := List.get?_eq_some.mp hx
    obtain ⟨hj, hyj⟩ := List.get?_eq_some.mp hy
    rw [← hxi, ← hyj]
    exact set_get_set_perm l i j hi hj
  · exact List.Perm.refl l

theorem fyAux_perm {α : Type} (draws : Nat → Nat) :
    ∀ (i : Nat) (l : List α), (fyAux draws i l).Perm l := by
  intro i
  induction i with
  | zero => intro l; exact List.Perm.refl l
  | succ i ih =>
    intro l
    exact (ih _).trans (swapL_perm l (i + 1) (draws (i + 1) % (i + 2)))

theorem pyShuffle_perm {α : Type} (draws : Nat → Nat) (l : List α) :
    (pyShuffle draws l).Perm l :=
  fyAux_perm draws (l.length - 1) l

/-! ## The sequential structure of generate_multiple -/

theorem genFrom_ok (f : Nat → Except GenError (List Char)) :
    ∀ (k i : Nat), (∀ j, j < k → ∃ s, f (i + j) = .ok s) →
      ∃ l, genFrom f i k = .ok l ∧ l.length = k ∧
        ∀ j, j < k → f (i + j) = .ok (l.getD j []) := by
  intro k
  induction k with
  | zero =>
    intro i _
    exact ⟨[], rfl, rfl, fun j hj => absurd hj (Nat.not_lt_zero j)⟩
  | succ k ih =>
    intro i hall
    obtain ⟨x, hx⟩ := hall 0 (Nat.succ_pos k)
    rw [Nat.add_zero] at hx
    obtain ⟨xs, hxs, hlen, helem⟩ := ih (i + 1) (fun j hj => by
      have := hall (j + 1) (Nat.succ_lt_succ hj)
      rwa [show i + (j + 1) = i + 1 + j by omega] at this)
    refine ⟨x :: xs, ?_, by simp [hlen], ?_⟩
    · unfold genFrom
      rw [hx, hxs]
    · intro j hj
      cases j with
      | zero => simpa using hx
      | succ m =>
        have := helem m (Nat.lt_of_succ_lt_succ hj)
        rw [show i + 1 + m = i + (m + 1) by omega] at this
        simpa using this

theorem genFrom_error (f : Nat → Except GenError (List Char)) :
    ∀ (k i j : Nat) (e : GenError), j < k → f (i + j) = .error e →
      (∀ m, m < j → ∃ s, f (i + m) = .ok s) →
      genFrom f i k = .error e := by
  intro k
  induction k with
  | zero =>
    intro i j e hj _ _
    exact absurd hj (Nat.not_lt_zero j)
  | succ k ih =>
    intro i j e hj herr hok
    cases j with
    | zero =>
      rw [Nat.add_zero] at herr
      unfold genFrom
      rw [herr]
    | succ m =>
      obtain ⟨x, hx⟩ := hok 0 (Nat.succ_pos m)
      rw [Nat.add_zero] at hx
      have hrec : genFrom f (i + 1) k = .error e := by
        refine ih (i + 1) m e (Nat.lt_of_succ_lt_succ hj) ?_ ?_
        · rwa [show i + 1 + m = i + (m + 1) by omega]
        · intro p hp
          have := hok (p + 1) (Nat.succ_lt_succ hp)
          rwa [show i + (p + 1) = i + 1 + p by omega] at this
      unfold genFrom
      rw [hx, hrec]

/-! ## Auxiliary facts and concrete instances used by the claim theorems -/

theorem pyChoice_ok_nonempty (l : List Char) (r : Nat) (hne : l.isEmpty = false) :
    pyChoice l r = .ok (l.getD (r % l.length) ' ') := by
  simp [pyChoice, hne]

theorem isEmpty_false_of_ne_nil {α : Type} {l : List α} (h : l ≠ []) :
    l.isEmpty = false := by
  cases l with
  | nil => exact absurd rfl h
  | cons a t => rfl

theorem length_pos_of_isEmpty_false {α : Type} {l : List α}
    (h : l.isEmpty = false) : 0 < l.length := by
  cases l with
  | nil => cases h
  | cons a t => simp

@[simp] theorem mkGenerator_policy (pol : PasswordPolicy) (wl : List (List Char)) :
    (mkGenerator pol wl).policy = pol := rfl

@[simp] theorem mkGenerator_lake (pol : PasswordPolicy) (wl : List (List Char)) :
    (mkGenerator pol wl).character_lake = mkCharacterLake pol := rfl

@[simp] theorem mkGenerator_wordlist (pol : PasswordPolicy) (wl : List (List Char)) :
    (mkGenerator pol wl).wordlist = wl := rfl

@[simp] theorem mkCharacterLake_policy (pol : PasswordPolicy) :
    (mkCharacterLake pol).policy = pol := rfl

/-- The all-zero oracle. -/
def oracle0 : RandOracle :=
  { charDraw := fun _ _ => 0, wordDraw := fun _ => 0, coin := fun _ => 0,
    digitDraw := 0, specialDraw := 0, shuffleDraw := fun _ => 0, sepDraw := 0 }

/-- A policy under which a two-character alphanumeric password succeeds on
the first attempt. -/
def polShort : PasswordPolicy :=
  { min_length := 2, max_length := 2, min_digits := 1, min_special := 0,
    min_upper := 0, min_lower := 1, exclude_chars := [], exclude_similar := false }

/-- An oracle whose first candidate under `polShort` is a lowercase letter
followed by a digit. -/
def oracleA : RandOracle :=
  { oracle0 with charDraw := fun _ i => if i = 0 then 0 else 54 }

/-! ## Claim C1 -/

/-- C1: for every in-bounds length, character category (Alphanumeric or
Complex) and strength, any string returned by `generate_password` has
exactly `length` characters, all drawn from `get_character_set` of the
category, and its per-class counts meet every policy minimum checked for
that category (digits/upper/lower for Alphanumeric; digits/special/upper/
lower for Complex). -/
theorem C1_char_password_ok_properties
    (pol : PasswordPolicy) (wl : List (List Char)) (len : Nat)
    (category : PasswordCategory) (strength : PasswordStrength) (o : RandOracle)
    (s : List Char)
    (hcat : category = .ALPHANUMERIC ∨ category = .COMPLEX)
    (hmin : pol.min_length ≤ len) (hmax : len ≤ pol.max_length)
    (hok : generate_password (mkGenerator pol wl) len category strength o = .ok s) :
    s.length = len ∧
    (∀ c ∈ s, c ∈ get_character_set (mkCharacterLake pol) category) ∧
    (category = .ALPHANUMERIC →
      countIn s (mkCharacterLake pol).digits ≥ pol.min_digits ∧
      countIn s (mkCharacterLake pol).uppercase ≥ pol.min_upper ∧
      countIn s (mkCharacterLake pol).lowercase ≥ pol.min_lower) ∧
    (category = .COMPLEX →
      countIn s (mkCharacterLake pol).digits ≥ pol.min_digits ∧
      countIn s (mkCharacterLake pol).special ≥ pol.min_special ∧
      countIn s (mkCharacterLake pol).uppercase ≥ pol.min_upper ∧
      countIn s (mkCharacterLake pol).lowercase ≥ pol.min_lower) := by
  have hcat' : category ≠ .PASSPHRASE := by
    rcases hcat with rfl | rfl <;> intro h <;> cases h
  rw [generate_password_char_path hmin hmax hcat'] at hok
  obtain ⟨⟨a, hdraw⟩, hval⟩ := attemptLoop_ok hok
  obtain ⟨hlen, hmem⟩ := drawCandidate_ok_props hdraw
  refine ⟨hlen, hmem, fun hA => ?_, fun hC => ?_⟩
  · subst hA
    exact validate_alpha_counts hval
  · subst hC
    exact validate_complex_counts hval

/-- Witness for C1 at a concrete successful generation. -/
theorem C1_witness :
    (['a', '2'] : List Char).length = 2 ∧
    (∀ c ∈ (['a', '2'] : List Char),
      c ∈ get_character_set (mkCharacterLake polShort) .ALPHANUMERIC) ∧
    (PasswordCategory.ALPHANUMERIC = .ALPHANUMERIC →
      countIn ['a', '2'] (mkCharacterLake polShort).digits ≥ polShort.min_digits ∧
      countIn ['a', '2'] (mkCharacterLake polShort).uppercase ≥ polShort.min_upper ∧
      countIn ['a', '2'] (mkCharacterLake polShort).lowercase ≥ polShort.min_lower) ∧
    (PasswordCategory.ALPHANUMERIC = .COMPLEX →
      countIn ['a', '2'] (mkCharacterLake polShort).digits ≥ polShort.min_digits ∧
      countIn ['a', '2'] (mkCharacterLake polShort).special ≥ polShort.min_special ∧
      countIn ['a', '2'] (mkCharacterLake polShort).uppercase ≥ polShort.min_upper ∧
      countIn ['a', '2'] (mkCharacterLake polShort).lowercase ≥ polShort.min_lower) :=
  C1_char_password_ok_properties polShort [] 2 .ALPHANUMERIC .STRONG oracleA
    ['a', '2'] (Or.inl rfl) (by decide) (by decide) rfl

/-! ## Claim C2 -/

/-- C2: for every category (Passphrase included, its `length` read as a
word-count) and strength, a length outside the policy bounds yields the
input-validation error identically for every oracle — hence before any
random draw — and an in-bounds length never yields that error. -/
theorem C2_length_bounds_validation
    (pol : PasswordPolicy) (wl : List (List Char)) (len : Nat)
    (category : PasswordCategory) (strength : PasswordStrength) (o : RandOracle) :
    ((len < pol.min_length ∨ pol.max_length < len) →
      generate_password (mkGenerator pol wl) len category strength o =
        .error .inputValidation) ∧
    (pol.min_length ≤ len → len ≤ pol.max_length →
      generate_password (mkGenerator pol wl) len category strength o ≠
        .error .inputValidation) := by
  constructor
  · intro hout
    exact generate_password_out_of_bounds
      (by simp only [mkGenerator_policy]; omega)
  · intro hmin hmax h
    by_cases hcat : category = .PASSPHRASE
    · subst hcat
      rw [generate_password_passphrase hmin hmax] at h
      rcases generate_passphrase_error h with h1 | h1 <;> cases h1
    · rw [generate_password_char_path hmin hmax hcat] at h
      rcases attemptLoop_error h with h1 | h1 <;> cases h1

/-- Witness for C2: one length below the default minimum is rejected. -/
theorem C2_witness :
    generate_password (mkGenerator {} []) 11 .ALPHANUMERIC .STRONG oracle0 =
      .error .inputValidation :=
  (C2_length_bounds_validation {} [] 11 .ALPHANUMERIC .STRONG oracle0).1
    (Or.inl (by decide))

/-! ## Claim C3 -/

/-- A policy whose exclusions empty the whole alphanumeric alphabet while
`min_digits = length + 1` holds for `length = 1`. -/
def polEmptied : PasswordPolicy :=
  { min_length := 1, max_length := 1, min_digits := 2, min_special := 0,
    min_upper := 0, min_lower := 0,
    exclude_chars := ascii_lowercase ++ ascii_digits, exclude_similar := false }

/-- Counterexample to C3 as stated: with `min_digits = length + 1` and
category Alphanumeric but an alphabet emptied by exclusions, the first
draw raises Python's `IndexError` rather than the policy-violation
error. -/
theorem C3_counterexample :
    polEmptied.min_digits = 1 + 1 ∧
    polEmptied.min_length ≤ 1 ∧ 1 ≤ polEmptied.max_length ∧
    generate_password (mkGenerator polEmptied []) 1 .ALPHANUMERIC .STRONG oracle0 =
      .error .indexError ∧
    (GenError.indexError ≠ .policyViolation max_attempts) :=
  ⟨rfl, by decide, by decide, rfl, by decide⟩

/-- C3 amended: provided the category alphabet is non-empty, the loop
draws at most `max_attempts = 100` candidates, and a policy demanding
`min_digits = length + 1` with category Alphanumeric always fails with
the policy-violation error naming the ceiling 100, for every oracle. -/
theorem C3_exhaustion_amended
    (pol : PasswordPolicy) (wl : List (List Char)) (len : Nat)
    (strength : PasswordStrength) (o : RandOracle)
    (hdig : pol.min_digits = len + 1)
    (hmin : pol.min_length ≤ len) (hmax : len ≤ pol.max_length)
    (hne : get_character_set (mkCharacterLake pol) .ALPHANUMERIC ≠ []) :
    generate_password (mkGenerator pol wl) len .ALPHANUMERIC strength o =
      .error (.policyViolation max_attempts) ∧ max_attempts = 100 := by
  refine ⟨?_, rfl⟩
  rw [generate_password_char_path hmin hmax (fun h => by cases h)]
  apply attemptLoop_exhaust (isEmpty_false_of_ne_nil hne)
  intro a
  exact validate_false_digit_deficit (candidate_length _ _ _)
    (by simp only [mkGenerator_lake, mkCharacterLake_policy]; omega)

/-- A satisfiable-bounds policy with `min_digits = 1 + 1` over the full
alphabet. -/
def polDigitHeavy : PasswordPolicy :=
  { min_length := 1, max_length := 2, min_digits := 2, min_special := 0,
    min_upper := 0, min_lower := 0, exclude_chars := [], exclude_similar := false }

/-- Witness for the amended C3. -/
theorem C3_witness :
    generate_password (mkGenerator polDigitHeavy []) 1 .ALPHANUMERIC .STRONG oracle0 =
      .error (.policyViolation max_attempts) ∧ max_attempts = 100 :=
  C3_exhaustion_amended polDigitHeavy [] 1 .STRONG oracle0 rfl (by decide) (by decide)
    (by decide)

/-! ## Claim C4 -/

/-- A policy excluding the space character, with word-count bounds
admitting 2. -/
def polNoSpace : PasswordPolicy :=
  { min_length := 2, max_length := 2, exclude_chars := [' '] }

/-- Counterexample to C4 as stated: a Basic passphrase joins its corpus
words with a space even when the space is an excluded character, so the
returned string contains an excluded character. -/
theorem C4_counterexample :
    ' ' ∈ polNoSpace.exclude_chars ∧
    generate_password (mkGenerator polNoSpace [['x']]) 2 .PASSPHRASE .BASIC oracle0 =
      .ok ['x', ' ', 'x'] ∧
    ' ' ∈ (['x', ' ', 'x'] : List Char) :=
  ⟨by decide, rfl, by decide⟩

/-- C4 amended: for the character categories (Alphanumeric and Complex) the
exclusion guarantee holds — no returned string contains a character of
`exclude_chars`, nor, when `exclude_similar` is set, a character of the
similar set; passphrase output is exempt because corpus words and
separators are never filtered. -/
theorem C4_exclusion_char_categories
    (pol : PasswordPolicy) (wl : List (List Char)) (len : Nat)
    (category : PasswordCategory) (strength : PasswordStrength) (o : RandOracle)
    (s : List Char) (c : Char)
    (hcat : category ≠ .PASSPHRASE)
    (hok : generate_password (mkGenerator pol wl) len category strength o = .ok s)
    (hc : c ∈ pol.exclude_chars ∨ (pol.exclude_similar = true ∧ c ∈ similar_chars)) :
    c ∉ s := by
  intro hmem
  by_cases hb : pol.min_length ≤ len ∧ len ≤ pol.max_length
  · rw [generate_password_char_path hb.1 hb.2 hcat] at hok
    obtain ⟨⟨a, hdraw⟩, -⟩ := attemptLoop_ok hok
    obtain ⟨-, hmemall⟩ := drawCandidate_ok_props hdraw
    exact excluded_not_mem_charset pol c hc category (hmemall c hmem)
  · rw [generate_password_out_of_bounds (by simpa using hb)] at hok
    cases hok

/-- `polShort` with the letter z excluded; `oracleA`'s first candidate is
then a lowercase letter followed by a digit. -/
def polNoZ : PasswordPolicy :=
  { min_length := 2, max_length := 2, min_digits := 1, min_special := 0,
    min_upper := 0, min_lower := 1, exclude_chars := ['z'], exclude_similar := false }

/-- Witness for the amended C4 at a concrete successful generation. -/
theorem C4_witness : 'z' ∉ (['a', '4'] : List Char) :=
  C4_exclusion_char_categories polNoZ [] 2 .ALPHANUMERIC .STRONG oracleA
    ['a', '4'] 'z' (fun h => by cases h) rfl (Or.inl (by decide))

/-! ## Claim C6 -/

/-- Counterexample to C6 as stated: under the default policy, a candidate
of length 2 whose upper and lower counts meet the minimums is judged
non-compliant for Passphrase, because the length bounds are checked for
every category. -/
theorem C6_counterexample :
    validate_policy_compliance (mkCharacterLake {}) ['A', 'b'] .PASSPHRASE = false ∧
    countIn ['A', 'b'] (mkCharacterLake {}).uppercase ≥ ({} : PasswordPolicy).min_upper ∧
    countIn ['A', 'b'] (mkCharacterLake {}).lowercase ≥ ({} : PasswordPolicy).min_lower ∧
    (['A', 'b'] : List Char).length < ({} : PasswordPolicy).min_length := by
  decide

/-- C6 amended: the Passphrase branch of the compliance predicate checks
the min_upper and min_lower minimums AND the global length bounds, which
the source applies to every category before the per-category branch. -/
theorem C6_passphrase_compliance_amended (lake : CharacterLake) (pw : List Char) :
    validate_policy_compliance lake pw .PASSPHRASE = true ↔
      (lake.policy.min_length ≤ pw.length ∧ pw.length ≤ lake.policy.max_length ∧
       countIn pw lake.uppercase ≥ lake.policy.min_upper ∧
       countIn pw lake.lowercase ≥ lake.policy.min_lower) := by
  unfold validate_policy_compliance
  split
  · rename_i h
    simp only [Bool.false_eq_true, false_iff]
    rintro ⟨h1, -⟩
    omega
  · split
    · rename_i h1 h2
      simp only [Bool.false_eq_true, false_iff]
      rintro ⟨-, h3, -⟩
      omega
    · rename_i h1 h2
      simp only [decide_eq_true_eq]
      constructor
      · rintro ⟨hu, hl⟩
        exact ⟨by omega, by omega, hu, hl⟩
      · rintro ⟨-, -, hu, hl⟩
        exact ⟨hu, hl⟩

/-- Witness for the amended C6: a 12-character candidate with the required
upper and lower counts is Passphrase-compliant under the default policy. -/
theorem C6_witness :
    validate_policy_compliance (mkCharacterLake {})
      ['A', 'b', 'a', 'b', 'a', 'b', 'a', 'b', 'a', 'b', 'a', 'b'] .PASSPHRASE = true :=
  (C6_passphrase_compliance_amended (mkCharacterLake {}) _).mpr (by decide)

/-! ## Claim C7 -/

/-- The default policy with every punctuation character excluded: the
special class required by Complex is emptied. -/
def polNoSpecial : PasswordPolicy := { exclude_chars := punctuation }

/-- C7: the code has no configuration error.  With every special character
excluded, `get_character_set` still returns a plain (non-empty) alphabet
for Complex while the derived special class is empty and `min_special = 2`
is still demanded, so every Complex generation loops to exhaustion and
reports a policy violation instead of failing fast with a configuration
error. -/
theorem C7_empty_class_no_config_error :
    (mkCharacterLake polNoSpecial).special = [] ∧
    polNoSpecial.min_special = 2 ∧
    get_character_set (mkCharacterLake polNoSpecial) .COMPLEX ≠ [] ∧
    ∀ o : RandOracle,
      generate_password (mkGenerator polNoSpecial []) 12 .COMPLEX .STRONG o =
        .error (.policyViolation max_attempts) := by
  refine ⟨rfl, rfl, by decide, fun o => ?_⟩
  rw [generate_password_char_path (by decide) (by decide) (fun h => by cases h)]
  apply attemptLoop_exhaust (isEmpty_false_of_ne_nil (by decide))
  intro a
  exact validate_false_special_empty rfl (by decide)

/-! ## Claim C8 -/

/-- C8: `generate_multiple` is exactly `count` sequential independent calls
to `generate_password` with the same arguments: when every call succeeds
it returns exactly `count` strings in call order, each the result of the
corresponding single call; when some call fails while all earlier ones
succeed, that call's error propagates and no partial list is returned. -/
theorem C8_generate_multiple
    (pol : PasswordPolicy) (wl : List (List Char)) (count len : Nat)
    (category : PasswordCategory) (strength : PasswordStrength)
    (os : Nat → RandOracle) :
    ((∀ i, i < count →
        ∃ s, generate_password (mkGenerator pol wl) len category strength (os i) = .ok s) →
      ∃ l, generate_multiple (mkGenerator pol wl) count len category strength os = .ok l ∧
        l.length = count ∧
        ∀ i, i < count →
          generate_password (mkGenerator pol wl) len category strength (os i) =
            .ok (l.getD i [])) ∧
    (∀ j e, j < count →
      generate_password (mkGenerator pol wl) len category strength (os j) = .error e →
      (∀ i, i < j →
        ∃ s, generate_password (mkGenerator pol wl) len category strength (os i) = .ok s) →
      generate_multiple (mkGenerator pol wl) count len category strength os = .error e) := by
  constructor
  · intro hall
    obtain ⟨l, h1, h2, h3⟩ :=
      genFrom_ok (fun i => generate_password (mkGenerator pol wl) len category strength (os i))
        count 0 (fun j hj => by simpa using hall j hj)
    exact ⟨l, h1, h2, fun i hi => by simpa using h3 i hi⟩
  · intro j e hj herr hok
    exact genFrom_error
      (fun i => generate_password (mkGenerator pol wl) len category strength (os i))
      count 0 j e hj (by simpa using herr) (fun m hm => by simpa using hok m hm)

/-- Witness for C8: two successful calls yield a two-element list of the
individual results. -/
theorem C8_witness :
    ∃ l, generate_multiple (mkGenerator polShort []) 2 2 .ALPHANUMERIC .STRONG
        (fun _ => oracleA) = .ok l ∧
      l.length = 2 ∧
      ∀ i, i < 2 →
        generate_password (mkGenerator polShort []) 2 .ALPHANUMERIC .STRONG oracleA =
          .ok (l.getD i []) :=
  (C8_generate_multiple polShort [] 2 2 .ALPHANUMERIC .STRONG (fun _ => oracleA)).1
    (fun _ _ => ⟨['a', '2'], rfl⟩)

/-! ## Claim C9 -/

/-- C9: for category Passphrase, `generate_password` returns whatever the
passphrase pipeline produced without ever invoking the compliance
predicate: even a passphrase judged non-compliant (here explicitly
hypothesised) is returned unchanged. -/
theorem C9_passphrase_skips_compliance
    (pol : PasswordPolicy) (wl : List (List Char)) (n : Nat)
    (strength : PasswordStrength) (o : RandOracle) (s : List Char)
    (hmin : pol.min_length ≤ n) (hmax : n ≤ pol.max_length)
    (hgen : generate_passphrase (mkGenerator pol wl) n strength o = .ok s)
    (_hbad : validate_policy_compliance (mkCharacterLake pol) s .PASSPHRASE = false) :
    generate_password (mkGenerator pol wl) n .PASSPHRASE strength o = .ok s := by
  rw [generate_password_passphrase hmin hmax]
  exact hgen

/-- A policy admitting one-word passphrases, with the default
`min_upper = 1`. -/
def polOneWord : PasswordPolicy := { min_length := 1, max_length := 1 }

/-- Witness for C9: the all-lowercase one-word passphrase fails the
Passphrase minimums yet is returned. -/
theorem C9_witness :
    generate_password (mkGenerator polOneWord [['x']]) 1 .PASSPHRASE .BASIC oracle0 =
      .ok ['x'] :=
  C9_passphrase_skips_compliance polOneWord [['x']] 1 .BASIC oracle0 ['x']
    (by decide) (by decide) rfl (by decide)

/-! ## Claim C10 -/

/-- C10: character exclusion is case-insensitive for letters — for every
excluded character, its lowercase form is removed from the lowercase class
and its uppercase form from the uppercase class — while the
similar-character exclusion never touches the special class (the special
class is the same whether or not `exclude_similar` is set). -/
theorem C10_case_insensitive_exclusion (pol : PasswordPolicy) :
    (∀ c ∈ pol.exclude_chars,
      Char.toLower c ∉ (mkCharacterLake pol).lowercase ∧
      Char.toUpper c ∉ (mkCharacterLake pol).uppercase) ∧
    (mkCharacterLake { pol with exclude_similar := true }).special =
      (mkCharacterLake { pol with exclude_similar := false }).special := by
  refine ⟨fun c hc => ⟨fun h => ?_, fun h => ?_⟩, rfl⟩
  · simp only [mkCharacterLake] at h
    exact ((mem_removeAll _ _).mp h).2 c hc rfl
  · simp only [mkCharacterLake] at h
    exact ((mem_removeAll _ _).mp h).2 c hc rfl

/-- The default policy with the letter a excluded. -/
def polNoA : PasswordPolicy := { exclude_chars := ['a'] }

/-- Witness for C10: excluding lowercase a removes both a and A. -/
theorem C10_witness :
    Char.toLower 'a' ∉ (mkCharacterLake polNoA).lowercase ∧
    Char.toUpper 'a' ∉ (mkCharacterLake polNoA).uppercase :=
  (C10_case_insensitive_exclusion polNoA).1 'a' (by decide)

/-! ## Claim C5 -/

/-- C5: for every in-bounds word-count `n`, a Paranoid passphrase is the
join, by one separator drawn from the five-element pool, of exactly
`n + 2` tokens: a permutation of the `n` capitalized corpus words plus one
single-digit token and one single-special-character token; in particular
at `n = 3` the token count is 5. -/
theorem C5_paranoid_passphrase_shape
    (pol : PasswordPolicy) (wl : List (List Char)) (n : Nat) (o : RandOracle)
    (hmin : pol.min_length ≤ n) (hmax : n ≤ pol.max_length)
    (hwl : wl ≠ [])
    (hdig : (mkCharacterLake pol).digits ≠ [])
    (hsp : (mkCharacterLake pol).special ≠ []) :
    ∃ (words : List (List Char)) (d sp : Char) (tokens : List (List Char)) (sep : List Char),
      generate_password (mkGenerator pol wl) n .PASSPHRASE .PARANOID o =
        .ok (joinSep sep tokens) ∧
      tokens.length = n + 2 ∧
      sep ∈ sepList ∧
      tokens.Perm (words.map pyCapitalize ++ [[d], [sp]]) ∧
      words.length = n ∧ (∀ w ∈ words, w ∈ wl) ∧
      d ∈ (mkCharacterLake pol).digits ∧ sp ∈ (mkCharacterLake pol).special := by
  have hwl' : wl.isEmpty = false := isEmpty_false_of_ne_nil hwl
  have hdig' : (mkCharacterLake pol).digits.isEmpty = false := isEmpty_false_of_ne_nil hdig
  have hsp' : (mkCharacterLake pol).special.isEmpty = false := isEmpty_false_of_ne_nil hsp
  refine ⟨(List.range n).map (fun i => wl.getD (o.wordDraw i % wl.length) []),
    (mkCharacterLake pol).digits.getD
      (o.digitDraw % (mkCharacterLake pol).digits.length) ' ',
    (mkCharacterLake pol).special.getD
      (o.specialDraw % (mkCharacterLake pol).special.length) ' ',
    pyShuffle o.shuffleDraw
      (((List.range n).map (fun i => wl.getD (o.wordDraw i % wl.length) [])).map pyCapitalize ++
        [[(mkCharacterLake pol).digits.getD
            (o.digitDraw % (mkCharacterLake pol).digits.length) ' '],
         [(mkCharacterLake pol).special.getD
            (o.specialDraw % (mkCharacterLake pol).special.length) ' ']]),
    sepList.getD (o.sepDraw % sepList.length) [], ?_, ?_, ?_, ?_, ?_, ?_, ?_, ?_⟩
  · rw [generate_password_passphrase hmin hmax]
    unfold generate_passphrase
    simp only [mkGenerator_wordlist, mkGenerator_lake, hwl', Bool.false_eq_true, if_false,
      pyChoice_ok_nonempty _ _ hdig', pyChoice_ok_nonempty _ _ hsp']
  · rw [(pyShuffle_perm _ _).length_eq]
    simp
  · exact getD_mem_of_lt _ _ _ (Nat.mod_lt _ (by decide))
  · exact pyShuffle_perm _ _
  · simp
  · intro w hw
    simp only [List.mem_map, List.mem_range] at hw
    obtain ⟨i, -, rfl⟩ := hw
    exact getD_mem_of_lt _ _ _ (Nat.mod_lt _ (length_pos_of_isEmpty_false hwl'))
  · exact getD_mem_of_lt _ _ _ (Nat.mod_lt _ (length_pos_of_isEmpty_false hdig'))
  · exact getD_mem_of_lt _ _ _ (Nat.mod_lt _ (length_pos_of_isEmpty_false hsp'))

/-- A policy admitting three-word passphrases, otherwise default. -/
def polThreeWords : PasswordPolicy := { min_length := 3, max_length := 10 }

/-- Witness for C5 at `generate(3, Passphrase, Paranoid)`: token count
`3 + 2 = 5`. -/
theorem C5_witness :
    ∃ (words : List (List Char)) (d sp : Char) (tokens : List (List Char)) (sep : List Char),
      generate_password (mkGenerator polThreeWords [['c','a','t'], ['d','o','g']]) 3
          .PASSPHRASE .PARANOID oracle0 =
        .ok (joinSep sep tokens) ∧
      tokens.length = 3 + 2 ∧
      sep ∈ sepList ∧
      tokens.Perm (words.map pyCapitalize ++ [[d], [sp]]) ∧
      words.length = 3 ∧ (∀ w ∈ words, w ∈ [['c','a','t'], ['d','o','g']]) ∧
      d ∈ (mkCharacterLake polThreeWords).digits ∧
      sp ∈ (mkCharacterLake polThreeWords).special :=
  C5_paranoid_passphrase_shape polThreeWords [['c','a','t'], ['d','o','g']] 3 oracle0
    (by decide) (by decide) (by decide) (by decide) (by decide)
